import Mathlib

/-
Verification of the GovInfo API service (Go, package config / server / main)
against its natural-language specification.

Shallow embedding:
  * the process environment is a partial map from variable names to strings
    (`none` models an unset variable, distinct from `some ""`);
  * `os.Getenv` collapses unset and empty, returning `""` for an unset key;
  * `godotenv.Load` overlays a `.env` file onto the environment without
    overriding already-present keys, and returns an error when the file is
    absent — modelled as a value-level result that `config.Load` discards;
  * the HTTP response writer accumulates a body string and records the
    status implied by the first write (200 when `WriteHeader` was never
    called); `fmt.Fprintln` appends its argument followed by a newline;
  * the zap logger is modelled as an accumulating list of log entries for
    emitted events, and an opaque handle value for the field stored in the
    configuration struct;
  * `http.ListenAndServe` is an abstract listener: a function from the bind
    address to the fatal error it eventually returns.
-/

namespace GovInfo

/-- Process environment: a variable is either unset (`none`) or set to a
string (possibly empty). -/
abbrev Env := String → Option String

/-- Contents of the optional local `.env` override file: `none` when the
file is absent, otherwise its key/value pairs. -/
abbrev DotenvFile := Option (List (String × String))

/-- Go `os.Getenv`: the variable's value, or `""` when it is unset. -/
def osGetenv (env : Env) (key : String) : String :=
  (env key).getD ""

/-- Effect of `godotenv.Load` on the environment: keys from the file are
added only when not already present; an absent file changes nothing. -/
def godotenvApply (file : DotenvFile) (env : Env) : Env :=
  match file with
  | none => env
  | some kvs => fun k =>
      match env k with
      | some v => some v
      | none => kvs.lookup k

/-- Error message godotenv produces when the `.env` file is absent. -/
def dotenvErr : String := "open .env: no such file or directory"

/-- Go `godotenv.Load()`: returns the updated environment together with the
error value (an error exactly when the file is absent). -/
def godotenvLoad (file : DotenvFile) (env : Env) : Env × Option String :=
  match file with
  | none => (env, some dotenvErr)
  | some _ => (godotenvApply file env, none)

/-- Opaque handle standing for a `*zap.Logger` value. -/
structure ZapLogger where
  id : Nat
deriving DecidableEq

/-- Go struct `config.Config` (file `internal/config`): four string fields
read from the environment plus a logger pointer, `none` modelling the nil
zero value. -/
structure Config where
  Port : String
  DBUrl : String
  TwilioSID : String
  TwilioToken : String
  Logger : Option ZapLogger
deriving DecidableEq

/-- Go `config.getEnv`: the variable's value via `os.Getenv`, or the
fallback when that value is the empty string. -/
def getEnv (env : Env) (key fallback : String) : String :=
  let val := osGetenv env key
  if val = "" then fallback else val

/-- Go `config.Load`: overlays the optional `.env` file (discarding the
godotenv error), then builds the Config from the resulting environment.
The `Logger` field is left at its zero value. -/
def Load (file : DotenvFile) (env : Env) : Config :=
  let env2 := (godotenvLoad file env).1
  { Port := getEnv env2 "PORT" "8080"
    DBUrl := osGetenv env2 "DATABASE_URL"
    TwilioSID := osGetenv env2 "TWILIO_SID"
    TwilioToken := osGetenv env2 "TWILIO_TOKEN"
    Logger := none }

/-- Go `http.ResponseWriter` state: the status recorded by the first write
(`none` until something is written) and the accumulated body. -/
structure RespState where
  wroteHeader : Option Nat
  body : String
deriving DecidableEq

/-- Fresh response writer at the start of a request. -/
def respInit : RespState := { wroteHeader := none, body := "" }

/-- A `Write` on the response writer: the first write fixes the status at
200 when `WriteHeader` was never called, and the bytes are appended. -/
def respWrite (st : RespState) (s : String) : RespState :=
  { wroteHeader := some (st.wroteHeader.getD 200), body := st.body ++ s }

/-- Go `fmt.Fprintln w s`: writes `s` followed by a newline. -/
def fprintln (st : RespState) (s : String) : RespState :=
  respWrite st (s ++ "\n")

/-- Status the response writer sends: 200 unless a header was written. -/
def respStatus (st : RespState) : Nat :=
  st.wroteHeader.getD 200

/-- `logger.Info`: appends one entry to the emitted log. -/
def infoLog (logs : List String) (msg : String) : List String :=
  logs ++ [msg]

/-- The `/health` handler closure registered in `server.Start`: logs one
info event, then `fmt.Fprintln(w, "OK")`. It does not read the Config. -/
def healthHandler (logs : List String) (st : RespState) : List String × RespState :=
  let logs2 := infoLog logs "Health check called"
  let st2 := fprintln st "OK"
  (logs2, st2)

/-- Request dispatch of the chi router built in `server.Start`: the single
registered route is `GET /health`; any other request has no handler. -/
def serve (_cfg : Config) (method path : String) (logs : List String)
    (st : RespState) : Option (List String × RespState) :=
  if method = "GET" ∧ path = "/health" then some (healthHandler logs st) else none

/-- Bind address computed in `server.Start`: `":" + cfg.Port`. -/
def startAddr (cfg : Config) : String :=
  ":" ++ cfg.Port

/-- Go `server.Start`: logs the listen address and returns the result of
`http.ListenAndServe` on it. `listen` abstracts the listener: the fatal
error it returns for a given address. -/
def Start (cfg : Config) (listen : String → String) : List String × String :=
  let addr := startAddr cfg
  (infoLog [] ("Server listening " ++ addr), listen addr)

/-- The statement `cfg.Logger = logger` in `main`: stores a logger handle
into the Config produced by `Load`. -/
def mainSetLogger (cfg : Config) (lg : ZapLogger) : Config :=
  { cfg with Logger := some lg }

/-- The statements of `func main()` in `cmd/govinfo/main.go`, in source
order. -/
inductive MainStmt where
  | loadCfg
  | setCfgLogger
  | newLogger
  | deferSync
  | logStarting
  | serveStart
deriving DecidableEq

/-- The body of `main` as written in the source file. -/
def mainStmts : List MainStmt :=
  [MainStmt.loadCfg, MainStmt.setCfgLogger, MainStmt.newLogger,
   MainStmt.deferSync, MainStmt.logStarting, MainStmt.serveStart]

/-- Local variables each statement of `main` reads. -/
def stmtUses : MainStmt → List String
  | MainStmt.loadCfg => []
  | MainStmt.setCfgLogger => ["cfg", "logger"]
  | MainStmt.newLogger => []
  | MainStmt.deferSync => ["logger", "err"]
  | MainStmt.logStarting => ["logger", "cfg"]
  | MainStmt.serveStart => ["cfg", "logger"]

/-- Local variables each statement of `main` declares. -/
def stmtDecls : MainStmt → List String
  | MainStmt.loadCfg => ["cfg"]
  | MainStmt.newLogger => ["logger", "err"]
  | _ => []

/-- Scope check over a statement list: the first variable read before any
statement has declared it, if one exists. -/
def firstUseBeforeDecl (declared : List String) : List MainStmt → Option String
  | [] => none
  | s :: rest =>
    match (stmtUses s).find? (fun v => !(declared.contains v)) with
    | some v => some v
    | none => firstUseBeforeDecl (declared ++ stmtDecls s) rest

/-- The environment Load reads is the godotenv overlay of the process
environment, independently of the discarded error component. -/
theorem godotenvLoad_fst (file : DotenvFile) (env : Env) :
    (godotenvLoad file env).1 = godotenvApply file env := by
  cases file <;> rfl

/-- The empty process environment: every variable unset. -/
def envNone : Env := fun _ => none

/-- An environment with `PORT` set to the non-empty value `"9090"`. -/
def envPort : Env := fun k => if k = "PORT" then some "9090" else none

/-- An environment with `PORT` present but set to the empty string. -/
def envPortEmpty : Env := fun k => if k = "PORT" then some "" else none

/-- The Config produced with no `.env` file and an empty environment. -/
def cfg0 : Config := Load none envNone

/-- Claim C1 counterexample: on the Config built from an empty environment,
a `GET /health` request produces the body `"OK\n"` — `fmt.Fprintln` appends
a newline — which is not the string `"OK"` the claim states. -/
theorem health_body_not_bare_ok :
    (serve cfg0 "GET" "/health" [] respInit).map (fun p => p.2.body) = some "OK\n"
    ∧ ("OK\n" : String) ≠ "OK" := by
  constructor
  · rfl
  · decide

/-- Claim C1 (amended): for every Configuration and incoming log state,
`GET /health` is routed, emits the single info entry, and responds with the
implicit status 200 and body `"OK"` followed by a newline. -/
theorem health_returns_ok (cfg : Config) (logs : List String) :
    serve cfg "GET" "/health" logs respInit =
      some (infoLog logs "Health check called",
            { wroteHeader := some 200, body := "OK\n" }) := by
  simp [serve, healthHandler, fprintln, respWrite, respInit]

/-- Claim C2: the Config's port equals `PORT`'s value when that variable is
set to a non-empty string, and equals `"8080"` when `PORT` is unset or set
to the empty string (in the environment as seen after the godotenv
overlay). -/
theorem load_port_env (file : DotenvFile) (env : Env) (p : String) :
    (godotenvApply file env "PORT" = some p → p ≠ "" → (Load file env).Port = p)
    ∧ (godotenvApply file env "PORT" = none ∨ godotenvApply file env "PORT" = some "" →
        (Load file env).Port = "8080") := by
  constructor
  · intro hset hne
    simp [Load, godotenvLoad_fst, getEnv, osGetenv, hset, hne]
  · intro hcase
    rcases hcase with h | h <;> simp [Load, godotenvLoad_fst, getEnv, osGetenv, h]

/-- Witness for C2: with `PORT=9090` and no `.env` file, the port is
`"9090"`. -/
theorem load_port_env_witness : (Load none envPort).Port = "9090" :=
  (load_port_env none envPort "9090").1 rfl (by decide)

/-- Claim C3 counterexample: in an environment where `PORT` is present and
equal to the empty string, the Config's port is `"8080"`, not the empty
value the claim requires. -/
theorem port_empty_present_cex :
    envPortEmpty "PORT" = some "" ∧ (Load none envPortEmpty).Port = "8080"
    ∧ ("8080" : String) ≠ "" := by
  refine ⟨rfl, rfl, by decide⟩

/-- Claim C3 (amended): the Config's port equals `PORT`'s value only when
that value is non-empty; when `PORT` is unset or set to the empty string —
`os.Getenv` cannot distinguish the two — the port is `"8080"`. -/
theorem load_port_empty_collapse (file : DotenvFile) (env : Env) :
    (Load file env).Port =
      if osGetenv (godotenvApply file env) "PORT" = "" then "8080"
      else osGetenv (godotenvApply file env) "PORT" := by
  simp [Load, godotenvLoad_fst, getEnv]

/-- Claim C4: every invocation of the `/health` handler emits exactly one
log entry: the log grows by precisely one entry per call. -/
theorem health_logs_one (logs : List String) (st : RespState) :
    ((healthHandler logs st).1).length = logs.length + 1 := by
  simp [healthHandler, infoLog]

/-- Claim C5: `dbUrl`, `twilioSID` and `twilioToken` are read with
`os.Getenv` and no default: each equals the variable's value, and is the
empty string when the variable is unset. -/
theorem load_no_default_fields (file : DotenvFile) (env : Env) :
    ((Load file env).DBUrl = osGetenv (godotenvApply file env) "DATABASE_URL")
    ∧ ((Load file env).TwilioSID = osGetenv (godotenvApply file env) "TWILIO_SID")
    ∧ ((Load file env).TwilioToken = osGetenv (godotenvApply file env) "TWILIO_TOKEN")
    ∧ (godotenvApply file env "DATABASE_URL" = none → (Load file env).DBUrl = "")
    ∧ (godotenvApply file env "TWILIO_SID" = none → (Load file env).TwilioSID = "")
    ∧ (godotenvApply file env "TWILIO_TOKEN" = none → (Load file env).TwilioToken = "") := by
  refine ⟨by simp [Load, godotenvLoad_fst], by simp [Load, godotenvLoad_fst],
          by simp [Load, godotenvLoad_fst], ?_, ?_, ?_⟩ <;>
    intro h <;> simp [Load, godotenvLoad_fst, osGetenv, h]

/-- Witness for C5: with every variable unset, all three fields are the
empty string. -/
theorem load_no_default_fields_witness :
    (Load none envNone).DBUrl = "" ∧ (Load none envNone).TwilioSID = ""
    ∧ (Load none envNone).TwilioToken = "" := by
  have h := load_no_default_fields none envNone
  exact ⟨h.2.2.2.1 rfl, h.2.2.2.2.1 rfl, h.2.2.2.2.2 rfl⟩

/-- Overlaying an empty `.env` file leaves every variable unchanged. -/
theorem godotenvApply_nil (env : Env) (k : String) :
    godotenvApply (some []) env k = env k := by
  cases h : env k <;> simp [godotenvApply, h, List.lookup]

/-- An absent `.env` file leaves the environment unchanged. -/
theorem godotenvApply_none (env : Env) : godotenvApply none env = env := rfl

/-- Claim C6: configuration loading is total — `Load` always returns a
Config and surfaces no error. When the `.env` file is absent godotenv does
report an error, but `Load` discards it and the resulting Config is the
same as if an empty file had been present. -/
theorem load_total_ignores_dotenv_error (env : Env) :
    (godotenvLoad none env).2 = some dotenvErr
    ∧ Load none env = Load (some []) env := by
  refine ⟨rfl, ?_⟩
  simp [Load, godotenvLoad_fst, getEnv, osGetenv, godotenvApply_nil, godotenvApply_none]

/-- A concrete logger handle, standing for the `zap.NewProduction()`
result. -/
def lg0 : ZapLogger := ⟨0⟩

/-- Claim C7 counterexample: the entrypoint's statement
`cfg.Logger = logger` changes the Logger field of the Config after `Load`
constructed it, so the Configuration is not immutable after
construction. -/
theorem config_logger_mutated_cex :
    (mainSetLogger cfg0 lg0).Logger ≠ cfg0.Logger := by
  decide

/-- Claim C7 (amended): after construction the four environment-derived
fields are never modified; the Logger field is assigned exactly once by
the entrypoint, which stores the logger handle into it. -/
theorem config_fields_stable (file : DotenvFile) (env : Env) (lg : ZapLogger) :
    ((mainSetLogger (Load file env) lg).Port = (Load file env).Port)
    ∧ ((mainSetLogger (Load file env) lg).DBUrl = (Load file env).DBUrl)
    ∧ ((mainSetLogger (Load file env) lg).TwilioSID = (Load file env).TwilioSID)
    ∧ ((mainSetLogger (Load file env) lg).TwilioToken = (Load file env).TwilioToken)
    ∧ ((mainSetLogger (Load file env) lg).Logger = some lg) := by
  simp [mainSetLogger]

/-- Claim C8: in `main` as written, the variable `logger` is read by the
statement at index 1 (`cfg.Logger = logger`) while it is only declared by
the statement at index 2 (`logger, err := zap.NewProduction()`), so the
scope check flags `logger` as used before its declaration. -/
theorem main_uses_logger_before_decl :
    firstUseBeforeDecl [] mainStmts = some "logger"
    ∧ List.findIdx (fun s => (stmtUses s).contains "logger") mainStmts = 1
    ∧ List.findIdx (fun s => (stmtDecls s).contains "logger") mainStmts = 2 := by
  decide

/-- Claim C9: `Start` listens on the address `":" ++ cfg.Port` and the
value it returns is exactly the listener's fatal error at that address. -/
theorem start_returns_listener_error (cfg : Config) (listen : String → String) :
    startAddr cfg = ":" ++ cfg.Port
    ∧ (Start cfg listen).2 = listen (":" ++ cfg.Port) :=
  ⟨rfl, rfl⟩

/-- A string appended to `":"` gives `":"` back only when it is empty. -/
theorem colon_append_ne (p : String) (h : p ≠ "") : (":" ++ p) ≠ ":" := by
  intro hEq
  apply h
  have hlen := congrArg String.length hEq
  simp [String.length_append] at hlen
  cases p with
  | mk data =>
    cases data with
    | nil => rfl
    | cons c cs => simp [String.length, List.length] at hlen

/-- Claim C10: the Config's port is never empty — it is a non-empty `PORT`
value or the fallback `"8080"` — so the listen address is never the bare
string `":"`. -/
theorem load_port_nonempty (file : DotenvFile) (env : Env) :
    (Load file env).Port ≠ "" ∧ startAddr (Load file env) ≠ ":" := by
  have hport : (Load file env).Port ≠ "" := by
    simp only [Load, godotenvLoad_fst, getEnv]
    split
    · decide
    · next h => exact h
  exact ⟨hport, colon_append_ne _ hport⟩

end GovInfo
